import Mathlib

/-!
Shallow embedding of the three-step RAG pipeline in
`PART1_RAG_IMPLEMENTATION/step.py` (`analyze_query_step`, `retrieve_step`,
`generate_step`), together with the external capabilities the steps consume
(language model, vector store, prompt template) and the transcript-file side
effect of `generate_step`.

The external capabilities are modelled as explicit functions returning
`Except Err _` so that a failing model call or a failing file write is an
`Except.error` that the step either propagates or does not.  Each step also
returns a trace of the external requests it issued, so that "exactly one
similarity-search request with k = 8" and "the model is invoked exactly once"
are provable statements about the step, not assumptions.
-/

namespace RAGPipeline

/-- Errors a pipeline step can propagate: a Python `KeyError` from a missing
dictionary key, a failing language-model invocation, and a failing file write
(`IOError`). -/
inductive Err where
  | keyError (key : String)
  | modelInvocationError
  | ioError
deriving Repr, DecidableEq

/-- Modelled from the spec: the `Search` shape of `search.py` (imported by
`step.py` but not part of the sources) — "StructuredQuery: { query: text,
section: label }".  `step.py` reads it with dictionary subscripts
(`structured_query["query"]`, `structured_query['section']`), so at runtime it
is a plain mapping whose keys may be absent; an absent key makes the subscript
raise `KeyError`.  The spec's design notes record that no local validation is
applied to it ("silent duck-typed acceptance"). -/
structure Search where
  query? : Option String
  section? : Option String
deriving Repr, DecidableEq

/-- Python dictionary subscript `s[key]` on a `Search` value: returns the
stored text or raises `KeyError key`. -/
def Search.getItem (s : Search) (key : String) : Except Err String :=
  if key = "query" then
    match s.query? with
    | some v => .ok v
    | none => .error (.keyError "query")
  else if key = "section" then
    match s.section? with
    | some v => .ok v
    | none => .error (.keyError "section")
  else .error (.keyError key)

/-- A retrieved passage (`langchain_core.documents.Document`): text content
plus a metadata mapping (association list). -/
structure Document where
  page_content : String
  metadata : List (String × String)
deriving Repr, DecidableEq

/-- Python `dict.get(key, default)` on a document's metadata mapping. -/
def metaGet (m : List (String × String)) (key dflt : String) : String :=
  match m.find? (fun p => p.1 == key) with
  | some p => p.2
  | none => dflt

/-- A language-model response; `generate_step` reads its `content` field. -/
structure LLMResponse where
  content : String
deriving Repr, DecidableEq

/-- The structured-output variant `llm.with_structured_output(Search)`:
its `invoke` maps the question text to a `Search` value or fails. -/
structure StructuredLLM where
  invoke : String → Except Err Search

/-- The language-model capability (`BaseLanguageModel`): a structured-output
variant for query analysis and a plain `invoke` on a formatted prompt. -/
structure BaseLanguageModel where
  withStructuredOutput : StructuredLLM
  invoke : String → Except Err LLMResponse

/-- The vector-store capability: `similarity_search(query_text, k)` returning
an ordered sequence of passages. -/
structure VectorStore where
  similarity_search : String → Nat → Except Err (List Document)

/-- The named values substituted into the prompt template:
`{"question": ..., "context": ...}`. -/
structure PromptInput where
  question : String
  context : String
deriving Repr, DecidableEq

/-! ## Step 1: `analyze_query_step` -/

/-- `analyze_query_step(question, llm)`: obtains the structured-output variant
of the model and invokes it once on the question, returning whatever the model
produced (no local parsing or validation).  The second component is the list
of inputs passed to the structured model — the step's only external request. -/
def analyze_query_step (question : String) (llm : BaseLanguageModel) :
    Except Err Search × List String :=
  (llm.withStructuredOutput.invoke question, [question])

/-! ## Step 2: `retrieve_step` -/

/-- `retrieve_step(structured_query, vector_store)`: reads
`structured_query["query"]`, issues one `similarity_search` request with that
text and `k = 8`, then (while logging the retrieved count) reads
`structured_query['section']`, and returns the retrieved documents.  The
second component is the list of `(query_text, k)` similarity-search requests
issued before the step returned or raised. -/
def retrieve_step (structured_query : Search) (vector_store : VectorStore) :
    Except Err (List Document) × List (String × Nat) :=
  match structured_query.getItem "query" with
  | .error e => (.error e, [])
  | .ok q =>
    match vector_store.similarity_search q 8 with
    | .error e => (.error e, [(q, 8)])
    | .ok retrieved_docs =>
      match structured_query.getItem "section" with
      | .error e => (.error e, [(q, 8)])
      | .ok _ => (.ok retrieved_docs, [(q, 8)])

/-! ## Step 3: `generate_step` -/

/-- The fixed relative transcript path hard-coded in `generate_step`
(the Python literal contains a real backslash: `\o` is not an escape). -/
def output_path : String := "PART1_RAG_IMPLEMENTATION\\output_example.txt"

/-- The context block: the passages' contents joined with a blank line, or the
fixed placeholder when no documents were retrieved. -/
def docs_content (context_docs : List Document) : String :=
  if context_docs.isEmpty then "No specific context found."
  else String.intercalate "\n\n" (context_docs.map Document.page_content)

/-- One numbered, section-labelled passage block of the transcript:
`f"Document {i+1} - Section: {doc.metadata.get('section', 'N/A')}:\n{doc.page_content}\n---\n"`. -/
def chunk_text (i : Nat) (doc : Document) : String :=
  "Document " ++ toString (i + 1) ++ " - Section: "
    ++ metaGet doc.metadata "section" "N/A" ++ ":\n" ++ doc.page_content ++ "\n---\n"

/-- The passage blocks written by the `for i, doc in enumerate(context_docs)`
loop, starting at index `i`. -/
def docsDump (i : Nat) : List Document → String
  | [] => ""
  | doc :: rest => chunk_text i doc ++ docsDump (i + 1) rest

/-- The full content `generate_step` writes to `output_path` (the
concatenation of its successive `f.write` calls). -/
def transcriptContent (question : String) (context_docs : List Document)
    (generated_answer : String) : String :=
  "Question:\n" ++ question ++ "\n\n"
    ++ "\n--- Retrieved Context Documents ---\n"
    ++ docsDump 0 context_docs
    ++ "Generated Answer:\n"
    ++ generated_answer

/-- Observable outcome of a `generate_step` run besides its return value:
the content of the transcript file at `output_path` (`none` = file absent),
the inputs substituted into the prompt template, and the formatted prompts
passed to `llm.invoke`. -/
structure GenTrace where
  fs : Option String
  promptCalls : List PromptInput
  llmCalls : List String
deriving Repr, DecidableEq

/-- `generate_step(question, context_docs, llm, prompt)`: builds the context
block, formats the prompt once, invokes the model once, then overwrites the
transcript file and returns the response's `content` field unchanged.
`writeOk` models whether the file write succeeds; `fs0` is the transcript
file's content before the run.  A failing model call leaves the file
untouched (the write comes after the model call); a failing write raises
after the model call and no answer is returned. -/
def generate_step (question : String) (context_docs : List Document)
    (llm : BaseLanguageModel) (prompt : PromptInput → String)
    (writeOk : Bool) (fs0 : Option String) : Except Err String × GenTrace :=
  let ctx := docs_content context_docs
  let messages := prompt { question := question, context := ctx }
  match llm.invoke messages with
  | .error e =>
    (.error e,
     { fs := fs0, promptCalls := [{ question := question, context := ctx }],
       llmCalls := [messages] })
  | .ok response =>
    let generated_answer := response.content
    if writeOk then
      (.ok generated_answer,
       { fs := some (transcriptContent question context_docs generated_answer),
         promptCalls := [{ question := question, context := ctx }],
         llmCalls := [messages] })
    else
      (.error .ioError,
       { fs := fs0, promptCalls := [{ question := question, context := ctx }],
         llmCalls := [messages] })

/-! ## String containment -/

/-- `containsStr s sub`: `sub` occurs contiguously inside `s`. -/
def containsStr (s sub : String) : Prop :=
  ∃ a b : List Char, s.data = a ++ sub.data ++ b

theorem containsStr_of_eq_append {s pre sub post : String}
    (h : s = pre ++ sub ++ post) : containsStr s sub :=
  ⟨pre.data, post.data, by subst h; simp⟩

theorem transcript_contains_question (q : String) (docs : List Document)
    (ans : String) :
    containsStr (transcriptContent q docs ans) ("Question:\n" ++ q) := by
  refine ⟨[], ("\n\n" ++ "\n--- Retrieved Context Documents ---\n"
    ++ docsDump 0 docs ++ "Generated Answer:\n" ++ ans).data, ?_⟩
  simp [transcriptContent]

theorem transcript_contains_answer (q : String) (docs : List Document)
    (ans : String) :
    containsStr (transcriptContent q docs ans) ("Generated Answer:\n" ++ ans) := by
  refine ⟨("Question:\n" ++ q ++ "\n\n" ++ "\n--- Retrieved Context Documents ---\n"
    ++ docsDump 0 docs).data, [], ?_⟩
  simp [transcriptContent]

theorem docsDump_contains (docs : List Document) (i j : Nat)
    (h : j < docs.length) :
    ∃ a b : List Char,
      (docsDump i docs).data
        = a ++ (chunk_text (i + j) (docs.get ⟨j, h⟩)).data ++ b := by
  induction docs generalizing i j with
  | nil => exact absurd h (Nat.not_lt_zero j)
  | cons d ds ih =>
    cases j with
    | zero =>
      exact ⟨[], (docsDump (i + 1) ds).data, by simp [docsDump]⟩
    | succ j' =>
      obtain ⟨a, b, hab⟩ := ih (i + 1) j' (Nat.lt_of_succ_lt_succ h)
      refine ⟨(chunk_text i d).data ++ a, b, ?_⟩
      have : i + (j' + 1) = i + 1 + j' := by omega
      simp [docsDump, this, hab]

theorem transcript_contains_chunk (q : String) (docs : List Document)
    (ans : String) (j : Nat) (h : j < docs.length) :
    containsStr (transcriptContent q docs ans)
      (chunk_text j (docs.get ⟨j, h⟩)) := by
  obtain ⟨a, b, hab⟩ := docsDump_contains docs 0 j h
  refine ⟨("Question:\n" ++ q ++ "\n\n"
      ++ "\n--- Retrieved Context Documents ---\n").data ++ a,
    b ++ ("Generated Answer:\n" ++ ans).data, ?_⟩
  have h0 : (0 : Nat) + j = j := Nat.zero_add j
  simp [transcriptContent, h0] at hab ⊢
  simp [hab]

/-! ## Stub capabilities used by concrete witnesses -/

/-- A vector store whose similarity search always returns the empty list. -/
def vsEmptyStub : VectorStore := ⟨fun _ _ => .ok []⟩

/-- Passage "A" carrying section metadata "intro". -/
def docA : Document := ⟨"A", [("section", "intro")]⟩

/-- Passage "B" carrying section metadata "intro". -/
def docB : Document := ⟨"B", [("section", "intro")]⟩

/-- A vector store returning the two passages of the end-to-end scenario. -/
def vsE2E : VectorStore := ⟨fun _ _ => .ok [docA, docB]⟩

/-- A language model whose structured-output variant always yields
`{query: "X", section: "intro"}` and whose plain invoke yields "X is ...". -/
def llmE2E : BaseLanguageModel :=
  { withStructuredOutput := ⟨fun _ => .ok ⟨some "X", some "intro"⟩⟩,
    invoke := fun _ => .ok ⟨"X is ..."⟩ }

/-- A language model that always fails. -/
def llmFail : BaseLanguageModel :=
  { withStructuredOutput := ⟨fun _ => .error .modelInvocationError⟩,
    invoke := fun _ => .error .modelInvocationError }

/-- A language model whose structured-output variant yields a `Search` with
both fields present but empty. -/
def llmEmptyFields : BaseLanguageModel :=
  { withStructuredOutput := ⟨fun _ => .ok ⟨some "", some ""⟩⟩,
    invoke := fun _ => .ok ⟨"ans"⟩ }

/-- A vector store whose similarity search always fails. -/
def vsFail : VectorStore := ⟨fun _ _ => .error .ioError⟩

/-- A prompt template that concatenates question and context. -/
def promptStub : PromptInput → String :=
  fun pi => pi.question ++ "\n\n" ++ pi.context

/-! ## Claims -/

/-- C1: for every structured query with a non-empty query text and a present
section value, and every vector store whose similarity search answers the
request `(query_text, 8)` with an ordered list `P` of at most 8 passages,
`retrieve_step` issues exactly that one similarity-search request and returns
exactly `P` in order, whatever the section value is; in particular an empty
`P` is returned as the empty list, not an error. -/
theorem C1_retrieve_returns_passages (s : Search) (vs : VectorStore)
    (q sec : String) (P : List Document)
    (hq : s.query? = some q) (hqne : q ≠ "")
    (hsec : s.section? = some sec) (hlen : P.length ≤ 8)
    (hvs : vs.similarity_search q 8 = .ok P) :
    retrieve_step s vs = (.ok P, [(q, 8)]) := by
  simp [retrieve_step, Search.getItem, hq, hsec, hvs]

/-- C1 witness: a concrete structured query against the empty index stub
returns the empty list, with exactly one `(query, 8)` request issued. -/
theorem C1_retrieve_returns_passages_witness :
    retrieve_step ⟨some "x", some "intro"⟩ vsEmptyStub = (.ok [], [("x", 8)]) :=
  C1_retrieve_returns_passages ⟨some "x", some "intro"⟩ vsEmptyStub "x" "intro"
    [] rfl (by decide) rfl (by decide) rfl

/-- C2: `generate_step` substitutes into the prompt template the question and
a context equal to the passages' contents joined by a blank line — or the
literal placeholder "No specific context found." when the passage list is
empty — and in both cases still passes the formatted prompt to the model
exactly once. -/
theorem C2_generate_context (q : String) (docs : List Document)
    (llm : BaseLanguageModel) (prompt : PromptInput → String)
    (w : Bool) (fs0 : Option String) :
    (generate_step q docs llm prompt w fs0).2.promptCalls
      = [{ question := q,
           context :=
             if docs.isEmpty then "No specific context found."
             else String.intercalate "\n\n" (docs.map Document.page_content) }]
    ∧ (generate_step q docs llm prompt w fs0).2.llmCalls
      = [prompt
          { question := q,
            context :=
              if docs.isEmpty then "No specific context found."
              else String.intercalate "\n\n" (docs.map Document.page_content) }] := by
  have hctx :
      (if docs.isEmpty then "No specific context found."
       else String.intercalate "\n\n" (docs.map Document.page_content))
        = docs_content docs := rfl
  rw [hctx]
  simp only [generate_step]
  cases h : llm.invoke (prompt { question := q, context := docs_content docs }) with
  | error e => simp [h]
  | ok r => cases w <;> simp [h]

/-- C5: whenever the model call inside `generate_step` succeeds with response
`resp` (and the transcript write succeeds), `generate_step` returns exactly
`resp.content`, the textual content field of the response, unchanged. -/
theorem C5_answer_verbatim (q : String) (docs : List Document)
    (llm : BaseLanguageModel) (prompt : PromptInput → String)
    (fs0 : Option String) (resp : LLMResponse)
    (hinv : llm.invoke (prompt { question := q, context := docs_content docs })
      = .ok resp) :
    (generate_step q docs llm prompt true fs0).1 = .ok resp.content := by
  simp [generate_step, hinv]

/-- C5 witness: with the end-to-end stubs the returned answer is the model
response's content field, "X is ...". -/
theorem C5_answer_verbatim_witness :
    (generate_step "Q" [docA, docB] llmE2E promptStub true none).1
      = .ok ("X is ..." : String) :=
  C5_answer_verbatim "Q" [docA, docB] llmE2E promptStub none ⟨"X is ..."⟩ rfl

/-- C6: for every non-empty question `Q`, if the structured-output variant of
the model answers `Q` with the structured query `S`, then
`analyze_query_step` returns exactly `S`. -/
theorem C6_analyzer_returns_model_output (Q : String)
    (llm : BaseLanguageModel) (S : Search) (hQ : Q ≠ "")
    (hstub : llm.withStructuredOutput.invoke Q = .ok S) :
    (analyze_query_step Q llm).1 = .ok S := by
  simpa [analyze_query_step] using hstub

/-- C6 witness: the end-to-end model stub makes the analyzer return
`{query: "X", section: "intro"}` on the concrete question. -/
theorem C6_analyzer_returns_model_output_witness :
    (analyze_query_step "What is X?" llmE2E).1
      = .ok ⟨some "X", some "intro"⟩ :=
  C6_analyzer_returns_model_output "What is X?" llmE2E
    ⟨some "X", some "intro"⟩ (by decide) rfl

/-- C3: after every successful `generate_step` run the transcript file at the
fixed path holds exactly the freshly written transcript (the previous content
`fs0` is discarded, not appended to), and that transcript contains the
question prefixed by "Question:\n", every retrieved passage numbered and
labelled by its section metadata (with fallback "N/A"), and the answer
prefixed by "Generated Answer:\n". -/
theorem C3_transcript_overwritten (q : String) (docs : List Document)
    (llm : BaseLanguageModel) (prompt : PromptInput → String)
    (w : Bool) (fs0 : Option String) (ans : String)
    (hok : (generate_step q docs llm prompt w fs0).1 = .ok ans) :
    (generate_step q docs llm prompt w fs0).2.fs
        = some (transcriptContent q docs ans)
    ∧ containsStr (transcriptContent q docs ans) ("Question:\n" ++ q)
    ∧ (∀ j (h : j < docs.length),
        containsStr (transcriptContent q docs ans)
          (chunk_text j (docs.get ⟨j, h⟩)))
    ∧ containsStr (transcriptContent q docs ans)
        ("Generated Answer:\n" ++ ans) := by
  refine ⟨?_, transcript_contains_question q docs ans,
    fun j h => transcript_contains_chunk q docs ans j h,
    transcript_contains_answer q docs ans⟩
  simp only [generate_step] at hok ⊢
  cases h : llm.invoke (prompt { question := q, context := docs_content docs }) with
  | error e => rw [h] at hok; exact absurd hok (by simp)
  | ok r =>
    rw [h] at hok
    cases w with
    | false => exact absurd hok (by simp)
    | true => simp_all

/-- C3 witness: a concrete successful run overwrites the transcript (initial
file content `some "stale"` is gone) and the content contains question,
passage and answer blocks. -/
theorem C3_transcript_overwritten_witness :
    (generate_step "Q" [docA] llmE2E promptStub true (some "stale")).2.fs
        = some (transcriptContent "Q" [docA] "X is ...")
    ∧ containsStr (transcriptContent "Q" [docA] "X is ...")
        ("Question:\n" ++ "Q")
    ∧ (∀ j (h : j < [docA].length),
        containsStr (transcriptContent "Q" [docA] "X is ...")
          (chunk_text j ([docA].get ⟨j, h⟩)))
    ∧ containsStr (transcriptContent "Q" [docA] "X is ...")
        ("Generated Answer:\n" ++ "X is ...") :=
  C3_transcript_overwritten "Q" [docA] llmE2E promptStub true (some "stale")
    "X is ..." rfl

/-- C4: in the end-to-end scenario (analyzer yields {query: "X", section:
"intro"}, retriever yields passages "A" and "B"), the generator substitutes
the context "A\n\nB", returns the model answer "X is ...", and the transcript
contains both passages labelled "Document 1 - Section: intro" and
"Document 2 - Section: intro" together with the final answer. -/
theorem C4_end_to_end_scenario :
    (analyze_query_step "What is X?" llmE2E).1 = .ok ⟨some "X", some "intro"⟩
    ∧ (retrieve_step ⟨some "X", some "intro"⟩ vsE2E).1 = .ok [docA, docB]
    ∧ (generate_step "What is X?" [docA, docB] llmE2E promptStub true
        none).2.promptCalls = [{ question := "What is X?", context := "A\n\nB" }]
    ∧ (generate_step "What is X?" [docA, docB] llmE2E promptStub true none).1
        = .ok ("X is ..." : String)
    ∧ (generate_step "What is X?" [docA, docB] llmE2E promptStub true
        none).2.fs = some (transcriptContent "What is X?" [docA, docB] "X is ...")
    ∧ containsStr (transcriptContent "What is X?" [docA, docB] "X is ...")
        "Document 1 - Section: intro:\nA\n---\n"
    ∧ containsStr (transcriptContent "What is X?" [docA, docB] "X is ...")
        "Document 2 - Section: intro:\nB\n---\n"
    ∧ containsStr (transcriptContent "What is X?" [docA, docB] "X is ...")
        "Generated Answer:\nX is ..." := by
  refine ⟨rfl, rfl, rfl, rfl, rfl, ?_, ?_, ?_⟩
  · have h := transcript_contains_chunk "What is X?" [docA, docB] "X is ..." 0
      (by decide)
    have e : chunk_text 0 ([docA, docB].get ⟨0, by decide⟩)
        = "Document 1 - Section: intro:\nA\n---\n" := by decide
    exact e ▸ h
  · have h := transcript_contains_chunk "What is X?" [docA, docB] "X is ..." 1
      (by decide)
    have e : chunk_text 1 ([docA, docB].get ⟨1, by decide⟩)
        = "Document 2 - Section: intro:\nB\n---\n" := by decide
    exact e ▸ h
  · have h := transcript_contains_answer "What is X?" [docA, docB] "X is ..."
    have e : ("Generated Answer:\n" ++ "X is ..." : String)
        = "Generated Answer:\nX is ..." := by decide
    exact e ▸ h

/-- An optional field holds non-empty text. -/
def optNonEmpty (o : Option String) : Prop := ∃ v, o = some v ∧ v ≠ ""

/-- The invariant of claim C7, as stated: every structured query a successful
`analyze_query_step` run returns has both fields present and non-empty. -/
def analyzerFieldsNonEmptyClaim : Prop :=
  ∀ (q : String) (llm : BaseLanguageModel) (r : Search),
    (analyze_query_step q llm).1 = .ok r →
    optNonEmpty r.query? ∧ optNonEmpty r.section?

/-- C7 counterexample: `analyze_query_step` performs no validation, so a
model producing `{query: "", section: ""}` makes the step succeed with both
fields empty — the claimed invariant does not hold of the code. -/
theorem C7_counterexample_empty_fields : ¬ analyzerFieldsNonEmptyClaim := by
  intro hclaim
  obtain ⟨v, hv, hne⟩ := (hclaim "Q" llmEmptyFields ⟨some "", some ""⟩ rfl).1
  injection hv with h
  exact hne h.symm

/-- C7 amended: the analyzer returns the model's structured query unchanged
(no local parsing or validation), so its fields are non-empty exactly when
the external model produced them non-empty. -/
theorem C7_amended_fields_from_model (q : String) (llm : BaseLanguageModel)
    (r : Search) (h : (analyze_query_step q llm).1 = .ok r) :
    llm.withStructuredOutput.invoke q = .ok r
    ∧ ((optNonEmpty r.query? ∧ optNonEmpty r.section?) ↔
       ∃ S, llm.withStructuredOutput.invoke q = .ok S
         ∧ optNonEmpty S.query? ∧ optNonEmpty S.section?) := by
  have h' : llm.withStructuredOutput.invoke q = .ok r := h
  refine ⟨h', ?_, ?_⟩
  · intro hr
    exact ⟨r, h', hr⟩
  · rintro ⟨S, hS, hSne⟩
    rw [h'] at hS
    injection hS with e
    exact e ▸ hSne

/-- C7 amended witness: with the end-to-end stub, the analyzer's successful
output is exactly the model's output. -/
theorem C7_amended_fields_from_model_witness :
    llmE2E.withStructuredOutput.invoke "What is X?"
      = .ok ⟨some "X", some "intro"⟩ :=
  (C7_amended_fields_from_model "What is X?" llmE2E
    ⟨some "X", some "intro"⟩ rfl).1

/-- C8: a failing external call makes the step return that error unchanged —
no retry (the analyzer invokes the structured model exactly once, the
retriever issues at most one search request, the generator invokes the model
exactly once), no recovery, no partial result: a failing model call in the
analyzer or generator and a failing transcript write in the generator each
yield an `Except.error` for the caller. -/
theorem C8_errors_propagate_uncaught :
    (∀ (q : String) (llm : BaseLanguageModel) (e : Err),
       llm.withStructuredOutput.invoke q = .error e →
       (analyze_query_step q llm).1 = .error e
         ∧ (analyze_query_step q llm).2.length = 1)
    ∧ (∀ (s : Search) (vs : VectorStore),
       (retrieve_step s vs).2.length ≤ 1)
    ∧ (∀ (s : Search) (vs : VectorStore) (q : String) (e : Err),
       s.query? = some q → vs.similarity_search q 8 = .error e →
       (retrieve_step s vs).1 = .error e)
    ∧ (∀ (q : String) (docs : List Document) (llm : BaseLanguageModel)
         (prompt : PromptInput → String) (w : Bool) (fs0 : Option String)
         (e : Err),
       llm.invoke (prompt { question := q, context := docs_content docs })
           = .error e →
       (generate_step q docs llm prompt w fs0).1 = .error e
         ∧ (generate_step q docs llm prompt w fs0).2.llmCalls.length = 1)
    ∧ (∀ (q : String) (docs : List Document) (llm : BaseLanguageModel)
         (prompt : PromptInput → String) (fs0 : Option String)
         (resp : LLMResponse),
       llm.invoke (prompt { question := q, context := docs_content docs })
           = .ok resp →
       (generate_step q docs llm prompt false fs0).1 = .error .ioError
         ∧ (generate_step q docs llm prompt false fs0).2.llmCalls.length
             = 1) := by
  refine ⟨?_, ?_, ?_, ?_, ?_⟩
  · intro q llm e he
    exact ⟨by simpa [analyze_query_step] using he, rfl⟩
  · intro s vs
    unfold retrieve_step
    cases h1 : s.getItem "query" with
    | error e => simp
    | ok q =>
      cases h2 : vs.similarity_search q 8 with
      | error e => simp [h2]
      | ok docs =>
        cases h3 : s.getItem "section" with
        | error e => simp [h2, h3]
        | ok sec => simp [h2, h3]
  · intro s vs q e hq he
    simp [retrieve_step, Search.getItem, hq, he]
  · intro q docs llm prompt w fs0 e he
    constructor <;> simp [generate_step, he]
  · intro q docs llm prompt fs0 resp hr
    constructor <;> simp [generate_step, hr]

/-- C8 witness: concrete failing capabilities make each step return the
error: a failing structured model call, a failing similarity search, a
failing generation model call, and a failing transcript write. -/
theorem C8_errors_propagate_uncaught_witness :
    (analyze_query_step "Q" llmFail).1 = .error .modelInvocationError
    ∧ (retrieve_step ⟨some "x", some "intro"⟩ vsFail).1 = .error .ioError
    ∧ (generate_step "Q" [] llmFail promptStub true none).1
        = .error .modelInvocationError
    ∧ (generate_step "Q" [] llmE2E promptStub false none).1
        = .error .ioError :=
  ⟨(C8_errors_propagate_uncaught.1 "Q" llmFail .modelInvocationError rfl).1,
   C8_errors_propagate_uncaught.2.2.1 ⟨some "x", some "intro"⟩ vsFail "x"
     .ioError rfl rfl,
   (C8_errors_propagate_uncaught.2.2.2.1 "Q" [] llmFail promptStub true none
     .modelInvocationError rfl).1,
   (C8_errors_propagate_uncaught.2.2.2.2 "Q" [] llmE2E promptStub none
     ⟨"X is ..."⟩ rfl).1⟩

/-- C9: the model is invoked strictly before the transcript file is opened,
so a failing model invocation leaves the transcript file exactly as it was
before the run. -/
theorem C9_transcript_unchanged_on_model_error (q : String)
    (docs : List Document) (llm : BaseLanguageModel)
    (prompt : PromptInput → String) (w : Bool) (fs0 : Option String)
    (e : Err)
    (h : llm.invoke (prompt { question := q, context := docs_content docs })
        = .error e) :
    (generate_step q docs llm prompt w fs0).2.fs = fs0 := by
  simp [generate_step, h]

/-- C9 witness: a failing model stub leaves the pre-existing transcript
content `some "old"` untouched. -/
theorem C9_transcript_unchanged_on_model_error_witness :
    (generate_step "Q" [docA] llmFail promptStub true (some "old")).2.fs
      = some "old" :=
  C9_transcript_unchanged_on_model_error "Q" [docA] llmFail promptStub true
    (some "old") .modelInvocationError rfl

/-- C10: `retrieve_step` needs both dictionary keys: with both present its
outcome is exactly the similarity-search outcome (no key-lookup error of its
own), while with the section key absent it raises `KeyError "section"` in
its logging step — after the one similarity-search request has already been
issued and has succeeded — instead of returning the retrieved passages. -/
theorem C10_section_key_required :
    (∀ (s : Search) (vs : VectorStore) (q sec : String),
       s.query? = some q → s.section? = some sec →
       (retrieve_step s vs).1 = vs.similarity_search q 8)
    ∧ (∀ (s : Search) (vs : VectorStore) (q : String) (P : List Document),
       s.query? = some q → s.section? = none →
       vs.similarity_search q 8 = .ok P →
       retrieve_step s vs = (.error (.keyError "section"), [(q, 8)])) := by
  constructor
  · intro s vs q sec hq hsec
    cases h : vs.similarity_search q 8 with
    | error e => simp [retrieve_step, Search.getItem, hq, hsec, h]
    | ok P => simp [retrieve_step, Search.getItem, hq, hsec, h]
  · intro s vs q P hq hsec hvs
    simp [retrieve_step, Search.getItem, hq, hsec, hvs]

/-- C10 witness: with both keys present the concrete retrieval returns the
stub index's answer; with the section key absent it returns
`KeyError "section"` even though the search itself succeeded. -/
theorem C10_section_key_required_witness :
    (retrieve_step ⟨some "x", some "intro"⟩ vsEmptyStub).1
      = vsEmptyStub.similarity_search "x" 8
    ∧ retrieve_step ⟨some "x", none⟩ vsEmptyStub
      = (.error (.keyError "section"), [("x", 8)]) :=
  ⟨C10_section_key_required.1 ⟨some "x", some "intro"⟩ vsEmptyStub "x" "intro"
     rfl rfl,
   C10_section_key_required.2 ⟨some "x", none⟩ vsEmptyStub "x" [] rfl rfl rfl⟩

end RAGPipeline
